import Mathlib

/-!
Shallow embedding of the devctx budget-constrained trimming and prompt
composition core (src tokens.js and src/prompts.js), together with proofs
of the specified properties.

Modelling conventions:
- JS strings are Lean `String`; a possibly-null/undefined string field is
  `Option String`.  JS falsiness of a string (`!text`) is emptiness.
- JS template interpolation of `undefined` produces the literal text
  "undefined" (`jsString`), while `Array.prototype.join` renders it as "".
- JS numbers used as token counts are `Nat`; the budget may be any integer
  and is modelled as `Int`, with counts cast where compared.
-/

/-- A single approach entry: the source accepts either a bare string or an
object with `description`, `failed`, `reason`. -/
structure ApproachObj where
  description : Option String
  failed : Bool
  reason : Option String
deriving DecidableEq, Repr

/-- The string-or-object union for one element of `approaches`. -/
inductive Approach where
  | bare (s : String)
  | obj (o : ApproachObj)
deriving DecidableEq, Repr

/-- A context record as persisted and fed to the trimming core. -/
structure ContextEntry where
  task : Option String
  goal : Option String
  state : Option String
  decisions : List String
  nextSteps : List String
  constraints : List String
  approaches : List Approach
  filesChanged : List String
  branch : Option String
  timestamp : Option String
deriving DecidableEq, Repr

/-- The result of `trimTobudget`: the entry fields (shallow copy, with the
trimmed values) plus the derived `_tokenCount` and `_tier` fields. -/
structure TrimmedEntry where
  task : Option String
  goal : Option String
  state : Option String
  decisions : List String
  nextSteps : List String
  constraints : List String
  approaches : List Approach
  filesChanged : List String
  branch : Option String
  timestamp : Option String
  tokenCount : Nat
  tier : String
deriving DecidableEq, Repr

/-- Forget the derived fields, viewing a trimmed entry again as an entry
(the shape in which the source would re-feed it to `trimTobudget`). -/
def TrimmedEntry.toEntry (t : TrimmedEntry) : ContextEntry :=
  { task := t.task, goal := t.goal, state := t.state,
    decisions := t.decisions, nextSteps := t.nextSteps,
    constraints := t.constraints, approaches := t.approaches,
    filesChanged := t.filesChanged, branch := t.branch,
    timestamp := t.timestamp }

/-- JS template interpolation of a possibly-undefined string. -/
def jsString : Option String → String
  | none => "undefined"
  | some s => s

/-- The three tier presets of tokens.js. -/
structure Tier where
  name : String
  budget : Int
deriving DecidableEq, Repr

namespace TIER

def MINIMAL : Tier := { name := "minimal", budget := 80 }

def STANDARD : Tier := { name := "standard", budget := 250 }

def FULL : Tier := { name := "full", budget := 600 }

end TIER

/-- countTokens on a plain string: 0 when empty, else ceil(length / 4). -/
def countTokensS (s : String) : Nat :=
  if s.length = 0 then 0 else (s.length + 3) / 4

/-- countTokens on a possibly-absent string (`!text` is false for
null/undefined as well as for ""). -/
def countTokens : Option String → Nat
  | none => 0
  | some s => countTokensS s

/-- The string countEntryTokens builds for one approach entry: objects are
rendered as one template string `description SPACE (reason or empty)`. -/
def approachText : Approach → String
  | .bare s => s
  | .obj o => jsString o.description ++ " " ++ (o.reason.getD "")

/-- countEntryTokens: sum of countTokens over task, goal, state, decisions,
nextSteps, constraints, the per-approach strings, and filesChanged. -/
def countEntryTokens (e : ContextEntry) : Nat :=
  countTokens e.task + countTokens e.goal + countTokens e.state
    + (e.decisions.map countTokensS).sum
    + (e.nextSteps.map countTokensS).sum
    + (e.constraints.map countTokensS).sum
    + (e.approaches.map (fun a => countTokensS (approachText a))).sum
    + (e.filesChanged.map countTokensS).sum

/-- The greedy first-fit-stop loop shared by all list categories of
`trimTobudget`: walk the list, take each item while the running total stays
within budget, stop at the first item that does not fit.  Returns the taken
items together with the final running total. -/
def greedyTake (budget : Int) (cost : α → Nat) (used : Nat) :
    List α → List α × Nat
  | [] => ([], used)
  | x :: xs =>
    if (↑(used + cost x) : Int) ≤ budget then
      let r := greedyTake budget cost (used + cost x) xs
      (x :: r.1, r.2)
    else ([], used)

/-- The allocator keeps only structured approaches with `failed` truthy. -/
def isFailedObj : Approach → Bool
  | .bare _ => false
  | .obj o => o.failed

/-- The cost `trimTobudget` charges one (structured) approach:
countTokens(description) + countTokens(reason). -/
def approachCost : Approach → Nat
  | .bare _ => 0
  | .obj o => countTokens o.description + countTokens o.reason

/-- Baseline usage: countTokens(task) + countTokens(state). -/
def used0 (e : ContextEntry) : Nat :=
  countTokens e.task + countTokens e.state

/-- The trimmed goal: kept all-or-nothing when it fits on the baseline. -/
def goalT (e : ContextEntry) (b : Int) : Option String :=
  if (↑(used0 e + countTokens e.goal) : Int) ≤ b then e.goal else none

/-- Usage after the goal step. -/
def usedG (e : ContextEntry) (b : Int) : Nat :=
  if (↑(used0 e + countTokens e.goal) : Int) ≤ b then
    used0 e + countTokens e.goal
  else used0 e

/-- Trimmed next steps. -/
def nsT (e : ContextEntry) (b : Int) : List String :=
  (greedyTake b countTokensS (usedG e b) e.nextSteps).1

/-- Usage after the next-steps step. -/
def usedNS (e : ContextEntry) (b : Int) : Nat :=
  (greedyTake b countTokensS (usedG e b) e.nextSteps).2

/-- Trimmed decisions. -/
def decT (e : ContextEntry) (b : Int) : List String :=
  (greedyTake b countTokensS (usedNS e b) e.decisions).1

/-- Usage after the decisions step. -/
def usedDec (e : ContextEntry) (b : Int) : Nat :=
  (greedyTake b countTokensS (usedNS e b) e.decisions).2

/-- The source list filtered to failed structured approaches, the only
entries the allocator will consider. -/
def failedApproaches (e : ContextEntry) : List Approach :=
  e.approaches.filter isFailedObj

/-- Trimmed approaches (failed-only, then greedy). -/
def apsT (e : ContextEntry) (b : Int) : List Approach :=
  (greedyTake b approachCost (usedDec e b) (failedApproaches e)).1

/-- Usage after the approaches step. -/
def usedAps (e : ContextEntry) (b : Int) : Nat :=
  (greedyTake b approachCost (usedDec e b) (failedApproaches e)).2

/-- Trimmed constraints. -/
def consT (e : ContextEntry) (b : Int) : List String :=
  (greedyTake b countTokensS (usedAps e b) e.constraints).1

/-- Usage after the constraints step: the final `_tokenCount`. -/
def usedCons (e : ContextEntry) (b : Int) : Nat :=
  (greedyTake b countTokensS (usedAps e b) e.constraints).2

/-- The `_tier` label computed from the numeric budget. -/
def tierOf (b : Int) : String :=
  if b ≤ TIER.MINIMAL.budget then "minimal"
  else if b ≤ TIER.STANDARD.budget then "standard"
  else "full"

/-- trimTobudget: shallow copy of the entry with goal kept all-or-nothing
and each list category trimmed greedily, in the fixed order next steps,
decisions, failed approaches, constraints; carries the final usage and the
tier label. -/
def trimTobudget (e : ContextEntry) (budget : Int) : TrimmedEntry :=
  { task := e.task, goal := goalT e budget, state := e.state,
    nextSteps := nsT e budget, decisions := decT e budget,
    approaches := apsT e budget, constraints := consT e budget,
    filesChanged := e.filesChanged, branch := e.branch,
    timestamp := e.timestamp,
    tokenCount := usedCons e budget, tier := tierOf budget }

/-- JS truthiness of a possibly-absent string: present and non-empty. -/
def jsTruthyS : Option String → Bool
  | none => false
  | some s => !(s.length = 0 : Bool)

/-- `join(" | ")` over a list of strings. -/
def joinPipe (l : List String) : String :=
  String.intercalate " | " l

/-- buildPrompt formats a retained failed approach as the template string
`description` plus, when the reason is truthy, a parenthesised reason. -/
def formatFailedApproach : Approach → String
  | .obj o =>
    jsString o.description ++
      (match o.reason with
        | some r => if r.length = 0 then "" else " (" ++ r ++ ")"
        | none => "")
  | .bare _ => "undefined"

/-- The date portion of the footer: `timestamp?.slice(0, 10)` interpolated
into the template (an absent timestamp renders as "undefined"). -/
def savedDate : Option String → String
  | none => "undefined"
  | some s => s.take 10

/-- The parts array assembled by buildPrompt before joining with newlines,
mirroring the sequence of conditional pushes in the source. -/
def buildPromptParts (entry : ContextEntry) (tier : Tier)
    (focusQuestion : Option String) : List String :=
  let e := trimTobudget entry tier.budget
  let parts1 := ["You are pair-programming on: " ++ jsString e.task]
  let parts2 :=
    if jsTruthyS e.goal then parts1 ++ ["Why: " ++ jsString e.goal] else parts1
  let parts3 :=
    if jsTruthyS e.state then parts2 ++ ["State: " ++ jsString e.state]
    else parts2
  let parts4 :=
    if e.constraints.isEmpty then parts3
    else parts3 ++ ["Constraints: " ++ joinPipe e.constraints]
  let parts5 :=
    if e.decisions.isEmpty then parts4
    else parts4 ++
      ["Settled decisions (don\x27t relitigate): " ++ joinPipe e.decisions]
  let failed := e.approaches.filter isFailedObj
  let parts6 :=
    if failed.isEmpty then parts5
    else parts5 ++
      ["Already failed — do NOT suggest: " ++
        joinPipe (failed.map formatFailedApproach)]
  let parts7 :=
    match e.nextSteps with
    | [] => parts6
    | n :: rest =>
      (parts6 ++ ["Next: " ++ n]) ++
        (if rest ≠ [] ∧ tier ≠ TIER.MINIMAL then
          ["Backlog: " ++ joinPipe rest]
        else [])
  let parts8 := parts7 ++
    ["Branch: " ++ jsString entry.branch ++ " | Saved: " ++
      savedDate entry.timestamp]
  if jsTruthyS focusQuestion then
    parts8 ++ ["\nFocus: " ++ jsString focusQuestion]
  else if !e.nextSteps.isEmpty then
    parts8 ++ ["\nContinue from next step. Ask clarifying questions if needed."]
  else
    parts8 ++ ["\nConfirm you understand the context, then ask what to work on."]

/-- buildPrompt: the newline join of its parts. -/
def buildPrompt (entry : ContextEntry) (tier : Tier)
    (focusQuestion : Option String) : String :=
  String.intercalate "\n" (buildPromptParts entry tier focusQuestion)

/-- buildHandoff renders a failed approach by description alone; a missing
description passed through Array.prototype.join renders as "". -/
def handoffFailedText : Approach → String
  | .obj o => o.description.getD ""
  | .bare _ => ""

/-- The parts array assembled by buildHandoff, which always trims at the
FULL budget and never renders constraints, reasons or the timestamp. -/
def buildHandoffParts (entry : ContextEntry) (fromUser toUser : String) :
    List String :=
  let e := trimTobudget entry TIER.FULL.budget
  let parts1 := ["HANDOFF: " ++ fromUser ++ " → " ++ toUser,
    "Task: " ++ jsString e.task]
  let parts2 :=
    if jsTruthyS e.goal then parts1 ++ ["Why: " ++ jsString e.goal] else parts1
  let parts3 :=
    if jsTruthyS e.state then
      parts2 ++ ["Where we left off: " ++ jsString e.state]
    else parts2
  let parts4 :=
    if e.decisions.isEmpty then parts3
    else parts3 ++
      ["Settled (don\x27t re-debate): " ++ joinPipe e.decisions]
  let failed := e.approaches.filter isFailedObj
  let parts5 :=
    if failed.isEmpty then parts4
    else parts4 ++ ["These failed: " ++ joinPipe (failed.map handoffFailedText)]
  let parts6 :=
    match e.nextSteps with
    | [] => parts5
    | n :: rest =>
      (parts5 ++ ["Your first move: " ++ n]) ++
        (if rest ≠ [] then ["Then: " ++ joinPipe rest] else [])
  parts6 ++ ["Branch: " ++ jsString entry.branch]

/-- buildHandoff: the newline join of its parts. -/
def buildHandoff (entry : ContextEntry) (fromUser toUser : String) : String :=
  String.intercalate "\n" (buildHandoffParts entry fromUser toUser)

theorem greedyTake_cons_fit {b : Int} {c : α → Nat} {u : Nat} {x : α}
    {xs : List α} (h : (↑(u + c x) : Int) ≤ b) :
    greedyTake b c u (x :: xs) =
      (x :: (greedyTake b c (u + c x) xs).1, (greedyTake b c (u + c x) xs).2) := by
  show (if (↑(u + c x) : Int) ≤ b then _ else _) = _
  rw [if_pos h]

theorem greedyTake_cons_nofit {b : Int} {c : α → Nat} {u : Nat} {x : α}
    {xs : List α} (h : ¬ (↑(u + c x) : Int) ≤ b) :
    greedyTake b c u (x :: xs) = ([], u) := by
  show (if (↑(u + c x) : Int) ≤ b then _ else _) = _
  rw [if_neg h]

theorem greedyTake_snd_le {b : Int} {c : α → Nat} :
    ∀ (xs : List α) (u : Nat), (↑u : Int) ≤ b →
      (↑((greedyTake b c u xs).2) : Int) ≤ b
  | [], _, h => h
  | x :: xs, u, h => by
    by_cases hf : (↑(u + c x) : Int) ≤ b
    · rw [greedyTake_cons_fit hf]
      exact greedyTake_snd_le xs (u + c x) hf
    · rw [greedyTake_cons_nofit hf]
      exact h

theorem greedyTake_over {b : Int} {c : α → Nat} {u : Nat} (xs : List α)
    (h : b < (↑u : Int)) : greedyTake b c u xs = ([], u) := by
  cases xs with
  | nil => rfl
  | cons x xs =>
    refine greedyTake_cons_nofit ?_
    intro hle
    have : (↑u : Int) ≤ ↑(u + c x) := by
      push_cast
      omega
    omega

theorem greedyTake_leads {b : Int} {c : α → Nat} :
    ∀ (xs : List α) (u : Nat), ∃ t, (greedyTake b c u xs).1 ++ t = xs
  | [], u => ⟨[], rfl⟩
  | x :: xs, u => by
    by_cases hf : (↑(u + c x) : Int) ≤ b
    · rw [greedyTake_cons_fit hf]
      obtain ⟨t, ht⟩ := greedyTake_leads (b := b) (c := c) xs (u + c x)
      exact ⟨t, by simp [ht]⟩
    · rw [greedyTake_cons_nofit hf]
      exact ⟨x :: xs, rfl⟩

theorem greedyTake_mem {b : Int} {c : α → Nat} {u : Nat} {xs : List α}
    {a : α} (h : a ∈ (greedyTake b c u xs).1) : a ∈ xs := by
  obtain ⟨t, ht⟩ := greedyTake_leads (b := b) (c := c) xs u
  rw [← ht]
  exact List.mem_append_left t h

theorem greedyTake_self {b : Int} {c : α → Nat} :
    ∀ (xs : List α) (u : Nat),
      greedyTake b c u ((greedyTake b c u xs).1) = greedyTake b c u xs
  | [], _ => rfl
  | x :: xs, u => by
    by_cases hf : (↑(u + c x) : Int) ≤ b
    · rw [greedyTake_cons_fit hf, greedyTake_cons_fit hf,
        greedyTake_self xs (u + c x)]
    · rw [greedyTake_cons_nofit hf]
      rfl

theorem greedyTake_nonpos {b : Int} {c : α → Nat} (hb : b ≤ 0) :
    ∀ (xs : List α) (u : Nat),
      (greedyTake b c u xs).2 = u ∧ ∀ x ∈ (greedyTake b c u xs).1, c x = 0
  | [], u => ⟨rfl, by simp [greedyTake]⟩
  | x :: xs, u => by
    by_cases hf : (↑(u + c x) : Int) ≤ b
    · have hzero : u + c x = 0 := by
        have : (↑(u + c x) : Int) ≤ 0 := le_trans hf hb
        exact_mod_cast le_antisymm (by exact_mod_cast this) (Nat.zero_le _)
      have hcx : c x = 0 := by omega
      have hu : u + c x = u := by omega
      rw [greedyTake_cons_fit hf]
      obtain ⟨h1, h2⟩ := greedyTake_nonpos (b := b) (c := c) hb xs (u + c x)
      refine ⟨by simpa [hu] using h1, ?_⟩
      intro y hy
      rcases List.mem_cons.mp hy with h | h
      · subst h; exact hcx
      · exact h2 y h
    · rw [greedyTake_cons_nofit hf]
      exact ⟨rfl, by simp⟩

theorem greedyTake_cons_nil_iff {b : Int} {c : α → Nat} {u : Nat} {x : α}
    {xs : List α} :
    (greedyTake b c u (x :: xs)).1 = [] ↔ b < (↑(u + c x) : Int) := by
  by_cases hf : (↑(u + c x) : Int) ≤ b
  · rw [greedyTake_cons_fit hf]
    simp
    omega
  · rw [greedyTake_cons_nofit hf]
    simp
    omega

theorem apsT_all_failed (e : ContextEntry) (b : Int) :
    ∀ a ∈ apsT e b, isFailedObj a = true := by
  intro a ha
  have h1 : a ∈ failedApproaches e := greedyTake_mem ha
  exact List.of_mem_filter h1

theorem trim_approaches_filter_id (e : ContextEntry) (b : Int) :
    (trimTobudget e b).approaches.filter isFailedObj =
      (trimTobudget e b).approaches :=
  List.filter_eq_self.mpr (apsT_all_failed e b)

theorem trim_over_budget (e : ContextEntry) (b : Int)
    (hover : b < (↑(used0 e) : Int)) :
    goalT e b = none ∧ nsT e b = [] ∧ decT e b = [] ∧ apsT e b = [] ∧
      consT e b = [] ∧ usedCons e b = used0 e := by
  have hnotg : ¬ (↑(used0 e + countTokens e.goal) : Int) ≤ b := by
    push_cast
    omega
  have hgU : usedG e b = used0 e := by
    unfold usedG
    rw [if_neg hnotg]
  have hgoal : goalT e b = none := by
    unfold goalT
    rw [if_neg hnotg]
  have hns : greedyTake b countTokensS (usedG e b) e.nextSteps =
      ([], used0 e) := by
    rw [hgU]
    exact greedyTake_over _ hover
  have hnsT : nsT e b = [] := by
    unfold nsT
    rw [hns]
  have husedNS : usedNS e b = used0 e := by
    unfold usedNS
    rw [hns]
  have hdec : greedyTake b countTokensS (usedNS e b) e.decisions =
      ([], used0 e) := by
    rw [husedNS]
    exact greedyTake_over _ hover
  have hdecT : decT e b = [] := by
    unfold decT
    rw [hdec]
  have husedDec : usedDec e b = used0 e := by
    unfold usedDec
    rw [hdec]
  have haps : greedyTake b approachCost (usedDec e b) (failedApproaches e) =
      ([], used0 e) := by
    rw [husedDec]
    exact greedyTake_over _ hover
  have hapsT : apsT e b = [] := by
    unfold apsT
    rw [haps]
  have husedAps : usedAps e b = used0 e := by
    unfold usedAps
    rw [haps]
  have hcons : greedyTake b countTokensS (usedAps e b) e.constraints =
      ([], used0 e) := by
    rw [husedAps]
    exact greedyTake_over _ hover
  have hconsT : consT e b = [] := by
    unfold consT
    rw [hcons]
  have husedCons : usedCons e b = used0 e := by
    unfold usedCons
    rw [hcons]
  exact ⟨hgoal, hnsT, hdecT, hapsT, hconsT, husedCons⟩

/-- Claim C1: for every context record and every integer budget that is at
least 0, the record trimmed by trimTobudget uses at most the budget; except
when the task+state baseline alone exceeds the budget, in which case the
reported token count equals the baseline exactly, the goal is absent, and
the trimmed nextSteps, decisions, approaches and constraints lists are all
empty. -/
theorem trim_tokens_within_budget (e : ContextEntry) (budget : Int)
    (_hb : 0 ≤ budget) :
    ((↑(used0 e) : Int) ≤ budget →
      (↑((trimTobudget e budget).tokenCount) : Int) ≤ budget) ∧
    (budget < (↑(used0 e) : Int) →
      (trimTobudget e budget).tokenCount = used0 e ∧
      (trimTobudget e budget).goal = none ∧
      (trimTobudget e budget).nextSteps = [] ∧
      (trimTobudget e budget).decisions = [] ∧
      (trimTobudget e budget).approaches = [] ∧
      (trimTobudget e budget).constraints = []) := by
  constructor
  · intro hbase
    have hg : (↑(usedG e budget) : Int) ≤ budget := by
      unfold usedG
      split
      · assumption
      · exact hbase
    have hns : (↑(usedNS e budget) : Int) ≤ budget :=
      greedyTake_snd_le _ _ hg
    have hd : (↑(usedDec e budget) : Int) ≤ budget :=
      greedyTake_snd_le _ _ hns
    have ha : (↑(usedAps e budget) : Int) ≤ budget :=
      greedyTake_snd_le _ _ hd
    exact greedyTake_snd_le _ _ ha
  · intro hover
    obtain ⟨h1, h2, h3, h4, h5, h6⟩ := trim_over_budget e budget hover
    exact ⟨h6, h1, h2, h3, h4, h5⟩

/-- Concrete record for the C1 witness: a short task and state with three
next steps, fitting comfortably inside the minimal budget of 80. -/
def eC1 : ContextEntry :=
  { task := some "Add retry logic", goal := none, state := some "WIP",
    decisions := [], nextSteps := ["Write tests", "Update docs",
      "Refactor client"],
    constraints := [], approaches := [], filesChanged := [],
    branch := some "main", timestamp := none }

/-- Witness for C1 at a concrete record and budget 80. -/
theorem trim_tokens_within_budget_witness :
    (↑((trimTobudget eC1 80).tokenCount) : Int) ≤ 80 :=
  (trim_tokens_within_budget eC1 80 (by decide)).1 (by decide)

/-- Concrete record for the C2 counterexample: one oversized next step
(44 characters, 11 tokens) and one cheap decision (1 token). -/
def eC2 : ContextEntry :=
  { task := some "", goal := none, state := some "",
    decisions := ["abcd"],
    nextSteps := [String.mk (List.replicate 44 'x')],
    constraints := [], approaches := [], filesChanged := [],
    branch := none, timestamp := none }

/-- Counterexample to claim C2: at budget 10 the next-steps scan stops at
its very first item (11 tokens does not fit), yet the later decisions
category is not empty — it picks up the decision that fits the unspent
budget, contradicting the claim that later categories stay empty. -/
theorem trim_later_category_nonempty_cex :
    (trimTobudget eC2 10).nextSteps = [] ∧ eC2.nextSteps ≠ [] ∧
    (trimTobudget eC2 10).decisions = ["abcd"] := by decide

/-- Claim C2 amended: when a category's greedy scan stops at its first item
that does not fit, only the remaining items of that same category are
excluded; each later-priority category is still scanned against the budget
remaining after the earlier categories, and is empty exactly when it has no
candidate items or its first candidate does not fit that remaining budget —
so a later category can be nonempty even though an earlier one stopped
early. -/
theorem trim_later_categories_scan (e : ContextEntry) (b : Int) :
    (∀ d ds, e.decisions = d :: ds →
      ((trimTobudget e b).decisions = [] ↔
        b < (↑(usedNS e b + countTokensS d) : Int))) ∧
    (∀ a as, failedApproaches e = a :: as →
      ((trimTobudget e b).approaches = [] ↔
        b < (↑(usedDec e b + approachCost a) : Int))) ∧
    (∀ c cs, e.constraints = c :: cs →
      ((trimTobudget e b).constraints = [] ↔
        b < (↑(usedAps e b + countTokensS c) : Int))) := by
  refine ⟨?_, ?_, ?_⟩
  · intro d ds hd
    show decT e b = [] ↔ _
    unfold decT
    rw [hd]
    exact greedyTake_cons_nil_iff
  · intro a as ha
    show apsT e b = [] ↔ _
    unfold apsT
    rw [ha]
    exact greedyTake_cons_nil_iff
  · intro c cs hc
    show consT e b = [] ↔ _
    unfold consT
    rw [hc]
    exact greedyTake_cons_nil_iff

/-- Witness for the amended C2 at the concrete record of the
counterexample: the decisions category is empty iff its first item does not
fit the budget left after the next-steps scan. -/
theorem trim_later_categories_scan_witness :
    (trimTobudget eC2 10).decisions = [] ↔
      (10 : Int) < (↑(usedNS eC2 10 + countTokensS "abcd") : Int) :=
  (trim_later_categories_scan eC2 10).1 "abcd" [] rfl

/-- Concrete record for the C3 counterexample: next steps costing 1 and 4
tokens followed by a 1-token decision. -/
def eC3 : ContextEntry :=
  { task := some "", goal := none, state := none,
    decisions := ["d"], nextSteps := ["a", "bbbbbbbbbbbbb"],
    constraints := [], approaches := [], filesChanged := [],
    branch := none, timestamp := none }

/-- Counterexample to claim C3: the decision included at budget 2 is no
longer included at the larger budget 5, because the larger budget admits
the expensive second next step, which consumes the slack the decision
needed — per-item inclusion is not monotone in the budget. -/
theorem trim_not_monotone_cex :
    (2 : Int) < 5 ∧ "d" ∈ (trimTobudget eC3 2).decisions ∧
    "d" ∉ (trimTobudget eC3 5).decisions := by decide

/-- Claim C3 amended: monotonicity holds for the goal field — a goal
retained at a budget is retained at every larger budget — but per-item
monotonicity fails for the list fields, where a larger budget can admit an
expensive earlier item and thereby exclude a later item that the smaller
budget included. -/
theorem trim_goal_monotone (e : ContextEntry) (b1 b2 : Int) (hb : b1 ≤ b2)
    (h : (trimTobudget e b1).goal = e.goal) :
    (trimTobudget e b2).goal = e.goal := by
  cases hg : e.goal with
  | none =>
    show goalT e b2 = none
    unfold goalT
    rw [hg]
    split <;> rfl
  | some g =>
    have h' : goalT e b1 = some g := by
      rw [← hg]
      exact h
    by_cases hc : (↑(used0 e + countTokens e.goal) : Int) ≤ b1
    · show goalT e b2 = some g
      unfold goalT
      rw [if_pos (le_trans hc hb), hg]
    · have h2 : goalT e b1 = none := by
        unfold goalT
        rw [if_neg hc]
      rw [h2] at h'
      exact absurd h' (by simp)

/-- Concrete record for the C3 witness: an empty baseline with a 1-token
goal retained at budget 1. -/
def eC3w : ContextEntry :=
  { task := some "", goal := some "gggg", state := none,
    decisions := [], nextSteps := [], constraints := [], approaches := [],
    filesChanged := [], branch := none, timestamp := none }

/-- Witness for the amended C3: the goal retained at budget 1 is retained
at the larger budget 5. -/
theorem trim_goal_monotone_witness :
    (trimTobudget eC3w 5).goal = eC3w.goal :=
  trim_goal_monotone eC3w 1 5 (by decide) (by decide)

/-- Concrete record for the C4 counterexample: a bare-string approach in
front of a failed structured approach. -/
def eC4 : ContextEntry :=
  { task := none, goal := none, state := none,
    decisions := [], nextSteps := [], constraints := [],
    approaches := [Approach.bare "x", Approach.obj ⟨some "a", true, none⟩],
    filesChanged := [], branch := none, timestamp := none }

/-- Counterexample to claim C4: the trimmed approaches list is not a prefix
of the source approaches list — the allocator filters out the leading
bare-string approach, leaving a gap, so the retained failed approach is not
preceded by the source head. -/
theorem trim_approaches_not_source_ordered_cex :
    ¬ ∃ t, (trimTobudget eC4 250).approaches ++ t = eC4.approaches := by
  intro hex
  obtain ⟨t, ht⟩ := hex
  have h1 : (trimTobudget eC4 250).approaches =
      [Approach.obj ⟨some "a", true, none⟩] := by decide
  rw [h1] at ht
  simp [eC4] at ht

/-- Claim C4 amended: the trimmed nextSteps, decisions and constraints
lists are prefixes, in original order, of the corresponding source lists;
the trimmed approaches list is a prefix of the source approaches list
filtered to failed structured entries — hence an order-preserving sublist
of the source approaches (with gaps where non-failed entries were), but not
in general a prefix of it. -/
theorem trim_lists_ordered_selection (e : ContextEntry) (b : Int) :
    (∃ t, (trimTobudget e b).nextSteps ++ t = e.nextSteps) ∧
    (∃ t, (trimTobudget e b).decisions ++ t = e.decisions) ∧
    (∃ t, (trimTobudget e b).constraints ++ t = e.constraints) ∧
    (∃ t, (trimTobudget e b).approaches ++ t = failedApproaches e) ∧
    List.Sublist (trimTobudget e b).approaches e.approaches := by
  refine ⟨greedyTake_leads _ _, greedyTake_leads _ _, greedyTake_leads _ _,
    greedyTake_leads _ _, ?_⟩
  obtain ⟨t, ht⟩ :=
    greedyTake_leads (b := b) (c := approachCost) (failedApproaches e)
      (usedDec e b)
  have h1 : List.Sublist (apsT e b) (failedApproaches e) := by
    rw [← ht]
    exact List.sublist_append_left _ _
  exact h1.trans (List.filter_sublist _)

/-- Modelled from the spec (section 4.1): the per-field sum the claim says
countEntryTokens computes, charging each approach
cost(description) + cost(reason), with missing text costing zero. -/
def countEntryTokensSpec (e : ContextEntry) : Nat :=
  countTokens e.task + countTokens e.goal + countTokens e.state
    + (e.decisions.map countTokensS).sum
    + (e.nextSteps.map countTokensS).sum
    + (e.constraints.map countTokensS).sum
    + (e.approaches.map approachCost).sum
    + (e.filesChanged.map countTokensS).sum

/-- Concrete record for the C5 counterexample: one structured approach with
a 4-character description and a 4-character reason. -/
def eC5 : ContextEntry :=
  { task := none, goal := none, state := none,
    decisions := [], nextSteps := [], constraints := [],
    approaches := [Approach.obj ⟨some "aaaa", true, some "bbbb"⟩],
    filesChanged := [], branch := none, timestamp := none }

/-- Counterexample to claim C5: countEntryTokens charges the approach as
one joined string "aaaa bbbb" (9 characters, 3 tokens), not as
cost(description) + cost(reason) = 1 + 1 = 2 as the claim states. -/
theorem countEntryTokens_not_split_sum_cex :
    countEntryTokens eC5 = 3 ∧ countEntryTokensSpec eC5 = 2 ∧
    countEntryTokens eC5 ≠ countEntryTokensSpec eC5 := by decide

/-- Claim C5 amended: countEntryTokens is total and equals the sum of
cost() over task, goal, state, every decision, every next step, every
constraint and every filesChanged entry, plus, for every approach: the cost
of the bare string itself, or, for a structured entry, the cost of the one
template string built from it — ceil((len(description) + 1 + len(reason))/4),
where a missing reason contributes length 0 and a missing description is
interpolated as the 9-character text "undefined" — rather than
cost(description) + cost(reason). -/
theorem countEntryTokens_eq_joined_sum (e : ContextEntry) :
    countEntryTokens e =
      countTokens e.task + countTokens e.goal + countTokens e.state
        + (e.decisions.map countTokensS).sum
        + (e.nextSteps.map countTokensS).sum
        + (e.constraints.map countTokensS).sum
        + (e.approaches.map (fun a =>
            match a with
            | .bare s => countTokensS s
            | .obj o =>
              ((jsString o.description).length + 1 +
                (o.reason.getD "").length + 3) / 4)).sum
        + (e.filesChanged.map countTokensS).sum := by
  have key : ∀ a : Approach, countTokensS (approachText a) =
      (match a with
        | .bare s => countTokensS s
        | .obj o =>
          ((jsString o.description).length + 1 +
            (o.reason.getD "").length + 3) / 4) := by
    intro a
    cases a with
    | bare s => rfl
    | obj o =>
      show countTokensS (jsString o.description ++ " " ++ o.reason.getD "") = _
      unfold countTokensS
      have hone : (" " : String).length = 1 := rfl
      have hlen : (jsString o.description ++ " " ++ o.reason.getD "").length =
          (jsString o.description).length + 1 + (o.reason.getD "").length := by
        rw [String.length_append, String.length_append, hone]
      rw [hlen, if_neg (by omega)]
  have hmap : e.approaches.map (fun a => countTokensS (approachText a)) =
      e.approaches.map (fun a =>
        match a with
        | .bare s => countTokensS s
        | .obj o =>
          ((jsString o.description).length + 1 +
            (o.reason.getD "").length + 3) / 4) := by
    induction e.approaches with
    | nil => rfl
    | cons a l ih =>
      simp only [List.map_cons, ih, key a]
  unfold countEntryTokens
  rw [hmap]

theorem toEntry_goal (e : ContextEntry) (b : Int) :
    ((trimTobudget e b).toEntry).goal = goalT e b := rfl

theorem used0_toEntry (e : ContextEntry) (b : Int) :
    used0 ((trimTobudget e b).toEntry) = used0 e := rfl

theorem goalT_toEntry (e : ContextEntry) (b : Int) :
    goalT ((trimTobudget e b).toEntry) b = goalT e b := by
  by_cases hc : (↑(used0 e + countTokens e.goal) : Int) ≤ b
  · have h1 : goalT e b = e.goal := by
      unfold goalT
      rw [if_pos hc]
    unfold goalT
    rw [used0_toEntry, toEntry_goal, h1]
  · have h1 : goalT e b = none := by
      unfold goalT
      rw [if_neg hc]
    unfold goalT
    rw [used0_toEntry, toEntry_goal, h1, if_neg hc]
    simp [countTokens]

theorem usedG_toEntry (e : ContextEntry) (b : Int) :
    usedG ((trimTobudget e b).toEntry) b = usedG e b := by
  by_cases hc : (↑(used0 e + countTokens e.goal) : Int) ≤ b
  · have h1 : goalT e b = e.goal := by
      unfold goalT
      rw [if_pos hc]
    unfold usedG
    rw [used0_toEntry, toEntry_goal, h1]
  · have h1 : goalT e b = none := by
      unfold goalT
      rw [if_neg hc]
    unfold usedG
    rw [used0_toEntry, toEntry_goal, h1, if_neg hc]
    simp [countTokens]

theorem nsPair_toEntry (e : ContextEntry) (b : Int) :
    greedyTake b countTokensS (usedG ((trimTobudget e b).toEntry) b)
      ((trimTobudget e b).toEntry).nextSteps =
    (nsT e b, usedNS e b) := by
  rw [usedG_toEntry]
  show greedyTake b countTokensS (usedG e b) (nsT e b) = (nsT e b, usedNS e b)
  unfold nsT usedNS
  rw [greedyTake_self]

theorem decPair_toEntry (e : ContextEntry) (b : Int) :
    greedyTake b countTokensS (usedNS ((trimTobudget e b).toEntry) b)
      ((trimTobudget e b).toEntry).decisions =
    (decT e b, usedDec e b) := by
  have h1 : usedNS ((trimTobudget e b).toEntry) b = usedNS e b := by
    unfold usedNS
    rw [nsPair_toEntry]
    rfl
  rw [h1]
  show greedyTake b countTokensS (usedNS e b) (decT e b) = (decT e b, usedDec e b)
  unfold decT usedDec
  rw [greedyTake_self]

theorem failedApproaches_toEntry (e : ContextEntry) (b : Int) :
    failedApproaches ((trimTobudget e b).toEntry) = apsT e b := by
  show (apsT e b).filter isFailedObj = apsT e b
  exact List.filter_eq_self.mpr (apsT_all_failed e b)

theorem apsPair_toEntry (e : ContextEntry) (b : Int) :
    greedyTake b approachCost (usedDec ((trimTobudget e b).toEntry) b)
      (failedApproaches ((trimTobudget e b).toEntry)) =
    (apsT e b, usedAps e b) := by
  have h1 : usedDec ((trimTobudget e b).toEntry) b = usedDec e b := by
    unfold usedDec
    rw [decPair_toEntry]
    rfl
  rw [h1, failedApproaches_toEntry]
  show greedyTake b approachCost (usedDec e b) (apsT e b) = (apsT e b, usedAps e b)
  unfold apsT usedAps
  rw [greedyTake_self]

theorem consPair_toEntry (e : ContextEntry) (b : Int) :
    greedyTake b countTokensS (usedAps ((trimTobudget e b).toEntry) b)
      ((trimTobudget e b).toEntry).constraints =
    (consT e b, usedCons e b) := by
  have h1 : usedAps ((trimTobudget e b).toEntry) b = usedAps e b := by
    unfold usedAps
    rw [apsPair_toEntry]
    rfl
  rw [h1]
  show greedyTake b countTokensS (usedAps e b) (consT e b) =
    (consT e b, usedCons e b)
  unfold consT usedCons
  rw [greedyTake_self]

/-- Claim C6: trimming is idempotent — re-trimming the contents of a
trimmed record at the same budget reproduces it unchanged on every field,
including the derived token count and tier fields. -/
theorem trimTobudget_idempotent (e : ContextEntry) (b : Int) :
    trimTobudget ((trimTobudget e b).toEntry) b = trimTobudget e b := by
  have hns : nsT ((trimTobudget e b).toEntry) b = nsT e b := by
    unfold nsT
    rw [nsPair_toEntry]
    rfl
  have hdec : decT ((trimTobudget e b).toEntry) b = decT e b := by
    unfold decT
    rw [decPair_toEntry]
    rfl
  have haps : apsT ((trimTobudget e b).toEntry) b = apsT e b := by
    unfold apsT
    rw [apsPair_toEntry]
    rfl
  have hcons : consT ((trimTobudget e b).toEntry) b = consT e b := by
    unfold consT
    rw [consPair_toEntry]
    rfl
  have hcnt : usedCons ((trimTobudget e b).toEntry) b = usedCons e b := by
    unfold usedCons
    rw [consPair_toEntry]
    rfl
  show TrimmedEntry.mk _ _ _ _ _ _ _ _ _ _ _ _ = TrimmedEntry.mk _ _ _ _ _ _ _ _ _ _ _ _
  rw [TrimmedEntry.mk.injEq]
  exact ⟨rfl, goalT_toEntry e b, rfl, hdec, hns, hcons, haps, rfl, rfl, rfl,
    hcnt, rfl⟩

/-- Concrete Scenario B record for C7: a failed structured approach with a
reason, followed by a bare-string approach. -/
def eC7 : ContextEntry :=
  { task := some "Fix", goal := none, state := none,
    decisions := [], nextSteps := [], constraints := [],
    approaches := [Approach.obj ⟨some "Used Redis", true, some "too heavy"⟩,
      Approach.bare "Tried caching"],
    filesChanged := [], branch := some "main",
    timestamp := some "2024-01-02T10:00:00Z" }

/-- Claim C7: the "Already failed" line of buildPrompt is built only from
the failed structured approaches retained by the allocator (the composer's
re-filter is the identity on them, and every retained entry is a structured
approach with failed = true, so bare strings and non-failed entries never
appear); each entry is formatted as "description (reason)" when a non-empty
reason exists and as just the description when the reason is absent; and on
the Scenario B record the rendered line is exactly
"Already failed — do NOT suggest: Used Redis (too heavy)". -/
theorem buildPrompt_failed_isolation (entry : ContextEntry) (tier : Tier) :
    ((trimTobudget entry tier.budget).approaches.filter isFailedObj =
      (trimTobudget entry tier.budget).approaches) ∧
    (∀ a ∈ (trimTobudget entry tier.budget).approaches,
      ∃ o, a = Approach.obj o ∧ o.failed = true) ∧
    (∀ o : ApproachObj, ∀ r, o.reason = some r → r.length ≠ 0 →
      formatFailedApproach (Approach.obj o) =
        jsString o.description ++ " (" ++ r ++ ")") ∧
    (∀ o : ApproachObj, o.reason = none →
      formatFailedApproach (Approach.obj o) = jsString o.description) ∧
    ("Already failed — do NOT suggest: Used Redis (too heavy)" ∈
      buildPromptParts eC7 TIER.STANDARD none) := by
  refine ⟨trim_approaches_filter_id entry tier.budget, ?_, ?_, ?_, by decide⟩
  · intro a ha
    have hf : isFailedObj a = true := apsT_all_failed entry tier.budget a ha
    cases a with
    | bare s => exact absurd hf (by simp [isFailedObj])
    | obj o => exact ⟨o, rfl, hf⟩
  · intro o r hr hne
    simp only [formatFailedApproach]
    rw [hr]
    simp [hne, String.append_assoc]
  · intro o hr
    simp only [formatFailedApproach]
    rw [hr]
    simp

/-- Witness for C7: the formatting branch applied at the concrete failed
approach of Scenario B yields "Used Redis (too heavy)". -/
theorem buildPrompt_failed_isolation_witness :
    formatFailedApproach (Approach.obj ⟨some "Used Redis", true,
      some "too heavy"⟩) = "Used Redis (too heavy)" := by
  have h := (buildPrompt_failed_isolation eC7 TIER.STANDARD).2.2.1
    ⟨some "Used Redis", true, some "too heavy"⟩ "too heavy" rfl (by decide)
  rw [h]
  decide

/-- Concrete record for the C8 counterexample: empty-string task, state and
goal, and an empty-string next step, all costing zero tokens. -/
def eC8 : ContextEntry :=
  { task := some "", goal := some "", state := some "",
    decisions := [], nextSteps := [""], constraints := [],
    approaches := [], filesChanged := [], branch := none, timestamp := none }

/-- Counterexample to claim C8: at budget 0 an empty-string goal is kept
(not made absent) and the empty-string next step is retained (the list is
not empty), because both cost zero tokens and zero fits a zero budget. -/
theorem trim_zero_budget_keeps_free_items_cex :
    (trimTobudget eC8 0).goal = some "" ∧
    (trimTobudget eC8 0).nextSteps = [""] := by decide

/-- Claim C8 amended: a zero or negative budget never fails and always
yields a token count equal to the task+state baseline, with the full task
and state kept; every retained optional item costs zero tokens (so for
records whose goal and list items all have positive cost, the output is
baseline-only); and for a strictly negative budget the goal is always
absent and all four lists are always empty. -/
theorem trim_nonpositive_budget (e : ContextEntry) (b : Int) (hb : b ≤ 0) :
    (trimTobudget e b).task = e.task ∧
    (trimTobudget e b).state = e.state ∧
    (trimTobudget e b).tokenCount = used0 e ∧
    countTokens (trimTobudget e b).goal = 0 ∧
    (∀ s ∈ (trimTobudget e b).nextSteps, countTokensS s = 0) ∧
    (∀ d ∈ (trimTobudget e b).decisions, countTokensS d = 0) ∧
    (∀ a ∈ (trimTobudget e b).approaches, approachCost a = 0) ∧
    (∀ c ∈ (trimTobudget e b).constraints, countTokensS c = 0) ∧
    (b < 0 →
      (trimTobudget e b).goal = none ∧ (trimTobudget e b).nextSteps = [] ∧
      (trimTobudget e b).decisions = [] ∧
      (trimTobudget e b).approaches = [] ∧
      (trimTobudget e b).constraints = []) := by
  have hgoal : countTokens (goalT e b) = 0 ∧ usedG e b = used0 e := by
    unfold goalT usedG
    by_cases hc : (↑(used0 e + countTokens e.goal) : Int) ≤ b
    · have hzero : used0 e + countTokens e.goal = 0 := by
        have h1 : (↑(used0 e + countTokens e.goal) : Int) ≤ 0 :=
          le_trans hc hb
        exact_mod_cast le_antisymm (by exact_mod_cast h1) (Nat.zero_le _)
      rw [if_pos hc, if_pos hc]
      omega
    · rw [if_neg hc, if_neg hc]
      exact ⟨rfl, rfl⟩
  obtain ⟨hg0, hgU⟩ := hgoal
  have hns := greedyTake_nonpos (b := b) (c := countTokensS) hb e.nextSteps
    (usedG e b)
  have husedNS : usedNS e b = used0 e := by
    rw [← hgU]
    exact hns.1
  have hdec := greedyTake_nonpos (b := b) (c := countTokensS) hb e.decisions
    (usedNS e b)
  have husedDec : usedDec e b = used0 e := by
    rw [← husedNS]
    exact hdec.1
  have haps := greedyTake_nonpos (b := b) (c := approachCost) hb
    (failedApproaches e) (usedDec e b)
  have husedAps : usedAps e b = used0 e := by
    rw [← husedDec]
    exact haps.1
  have hcons := greedyTake_nonpos (b := b) (c := countTokensS) hb
    e.constraints (usedAps e b)
  have husedCons : usedCons e b = used0 e := by
    rw [← husedAps]
    exact hcons.1
  refine ⟨rfl, rfl, husedCons, hg0, hns.2, hdec.2, haps.2, hcons.2, ?_⟩
  intro hneg
  have hover : b < (↑(used0 e) : Int) := by
    have : (0 : Int) ≤ ↑(used0 e) := Int.ofNat_nonneg _
    omega
  obtain ⟨h1, h2, h3, h4, h5, _⟩ := trim_over_budget e b hover
  exact ⟨h1, h2, h3, h4, h5⟩

/-- Witness for the amended C8 at the concrete counterexample record and
budget -1: the goal is absent and the next-steps list is empty. -/
theorem trim_nonpositive_budget_witness :
    (trimTobudget eC8 (-1)).goal = none ∧
    (trimTobudget eC8 (-1)).nextSteps = [] := by
  have h := trim_nonpositive_budget eC8 (-1) (by decide)
  have h9 := h.2.2.2.2.2.2.2.2 (by decide)
  exact ⟨h9.1, h9.2.1⟩

theorem append_if_bool (c : Bool) (parts l : List String) :
    (if c then parts ++ l else parts) = parts ++ (if c then l else []) := by
  cases c <;> simp

theorem append_if_list {α : Type} [DecidableEq α] (l : List α) (parts m : List String) :
    (if l.isEmpty then parts else parts ++ m) =
      parts ++ (if l = [] then [] else m) := by
  cases l <;> simp

theorem if_not_isEmpty {α : Type} [DecidableEq α] (l : List α) (A B : List String) :
    (if !l.isEmpty then A else B) = (if l = [] then B else A) := by
  cases l <;> simp

theorem append_closing (c1 : Bool) (c2 : Prop) [Decidable c2]
    (parts x y z : List String) :
    (if c1 then parts ++ x else if c2 then parts ++ y else parts ++ z) =
      parts ++ (if c1 then x else if c2 then y else z) := by
  by_cases h2 : c2 <;> cases c1 <;> simp [h2]

theorem append_match_next (parts : List String) (l : List String)
    (tier : Tier) :
    (match l with
      | [] => parts
      | n :: rest =>
        (parts ++ ["Next: " ++ n]) ++
          (if rest ≠ [] ∧ tier ≠ TIER.MINIMAL then
            ["Backlog: " ++ joinPipe rest]
          else [])) =
    parts ++ (match l with
      | [] => []
      | n :: rest =>
        ["Next: " ++ n] ++
          (if rest ≠ [] ∧ tier ≠ TIER.MINIMAL then
            ["Backlog: " ++ joinPipe rest]
          else [])) := by
  cases l with
  | nil => simp
  | cons n rest => simp [List.append_assoc]

theorem append_match_first_move (parts : List String) (l : List String) :
    (match l with
      | [] => parts
      | n :: rest =>
        (parts ++ ["Your first move: " ++ n]) ++
          (if rest ≠ [] then ["Then: " ++ joinPipe rest] else [])) =
    parts ++ (match l with
      | [] => []
      | n :: rest =>
        ["Your first move: " ++ n] ++
          (if rest ≠ [] then ["Then: " ++ joinPipe rest] else [])) := by
  cases l with
  | nil => simp
  | cons n rest => simp [List.append_assoc]

/-- Concrete record for the C9 counterexample: a constraint, a failed
approach with a reason, and branch plus timestamp metadata. -/
def eC9 : ContextEntry :=
  { task := some "T", goal := none, state := some "S",
    decisions := [], nextSteps := [], constraints := ["c1"],
    approaches := [Approach.obj ⟨some "Used Redis", true, some "too heavy"⟩],
    filesChanged := [], branch := some "main",
    timestamp := some "2024-01-02T03:04:05Z" }

/-- Counterexample to claim C9: resume mode renders the constraints line,
the reasoned failed-approach format and the branch-plus-date footer, but
buildHandoff renders none of them — it emits no constraints line, drops the
"(too heavy)" reason, and its footer has the branch without the date. -/
theorem buildHandoff_omits_resume_sections_cex :
    ("Constraints: c1" ∈ buildPromptParts eC9 TIER.FULL none) ∧
    ("Constraints: c1" ∉ buildHandoffParts eC9 "alice" "bob") ∧
    ("These failed: Used Redis" ∈ buildHandoffParts eC9 "alice" "bob") ∧
    ("These failed: Used Redis (too heavy)" ∉
      buildHandoffParts eC9 "alice" "bob") ∧
    ("Branch: main | Saved: 2024-01-02" ∈ buildPromptParts eC9 TIER.FULL none) ∧
    ("Branch: main | Saved: 2024-01-02" ∉
      buildHandoffParts eC9 "alice" "bob") ∧
    ("Branch: main" ∈ buildHandoffParts eC9 "alice" "bob") := by decide

/-- Claim C9 amended: buildHandoff always trims at the largest canonical
budget 600 regardless of requested tier, opens with the "HANDOFF: from →
to" line, relabels the next-step lines as "Your first move" / "Then", and
omits not only the generic anchor and closing-directive lines of resume
mode but also the constraints line, the "(reason)" suffix of failed
approaches (it lists descriptions only), and the date portion of the
footer (branch only); goal, state and decisions render conditionally and
the retained failed approaches are exactly the allocator's. -/
theorem buildHandoff_structure (entry : ContextEntry)
    (fromUser toUser : String) :
    buildHandoffParts entry fromUser toUser =
      ["HANDOFF: " ++ fromUser ++ " → " ++ toUser,
        "Task: " ++ jsString (trimTobudget entry 600).task]
      ++ (if jsTruthyS (trimTobudget entry 600).goal then
            ["Why: " ++ jsString (trimTobudget entry 600).goal]
          else [])
      ++ (if jsTruthyS (trimTobudget entry 600).state then
            ["Where we left off: " ++ jsString (trimTobudget entry 600).state]
          else [])
      ++ (if (trimTobudget entry 600).decisions = [] then []
          else ["Settled (don\x27t re-debate): " ++
            joinPipe (trimTobudget entry 600).decisions])
      ++ (if (trimTobudget entry 600).approaches = [] then []
          else ["These failed: " ++
            joinPipe ((trimTobudget entry 600).approaches.map
              handoffFailedText)])
      ++ (match (trimTobudget entry 600).nextSteps with
          | [] => []
          | n :: rest =>
            ["Your first move: " ++ n] ++
              (if rest ≠ [] then ["Then: " ++ joinPipe rest] else []))
      ++ ["Branch: " ++ jsString entry.branch] := by
  have h600 : TIER.FULL.budget = (600 : Int) := rfl
  simp only [buildHandoffParts, h600, trim_approaches_filter_id,
    append_if_bool, append_if_list, append_match_first_move]

/-- Concrete record for the C10 counterexample: a task but no branch and no
timestamp. -/
def eC10 : ContextEntry :=
  { task := some "T", goal := none, state := none,
    decisions := [], nextSteps := [], constraints := [], approaches := [],
    filesChanged := [], branch := none, timestamp := none }

/-- Counterexample to claim C10: with branch and timestamp absent, the
metadata footer is still emitted — buildPrompt pushes it unconditionally,
interpolating the placeholder text "undefined" for both fields. -/
theorem buildPrompt_footer_unconditional_cex :
    "Branch: undefined | Saved: undefined" ∈
      buildPromptParts eC10 TIER.STANDARD none := by decide

/-- Claim C10 amended: in the resume composer, the data-driven sections
(goal, state, constraints, decisions, failed approaches, next step and
backlog) are emitted only when their source data is present, but the anchor
line, the metadata footer and a closing directive are always emitted — the
footer unconditionally, rendering the JS interpolation "undefined" when the
branch or the timestamp is absent, rather than being omitted. -/
theorem buildPrompt_sections (entry : ContextEntry) (tier : Tier)
    (focusQuestion : Option String) :
    buildPromptParts entry tier focusQuestion =
      ["You are pair-programming on: " ++
        jsString (trimTobudget entry tier.budget).task]
      ++ (if jsTruthyS (trimTobudget entry tier.budget).goal then
            ["Why: " ++ jsString (trimTobudget entry tier.budget).goal]
          else [])
      ++ (if jsTruthyS (trimTobudget entry tier.budget).state then
            ["State: " ++ jsString (trimTobudget entry tier.budget).state]
          else [])
      ++ (if (trimTobudget entry tier.budget).constraints = [] then []
          else ["Constraints: " ++
            joinPipe (trimTobudget entry tier.budget).constraints])
      ++ (if (trimTobudget entry tier.budget).decisions = [] then []
          else ["Settled decisions (don\x27t relitigate): " ++
            joinPipe (trimTobudget entry tier.budget).decisions])
      ++ (if (trimTobudget entry tier.budget).approaches = [] then []
          else ["Already failed — do NOT suggest: " ++
            joinPipe ((trimTobudget entry tier.budget).approaches.map
              formatFailedApproach)])
      ++ (match (trimTobudget entry tier.budget).nextSteps with
          | [] => []
          | n :: rest =>
            ["Next: " ++ n] ++
              (if rest ≠ [] ∧ tier ≠ TIER.MINIMAL then
                ["Backlog: " ++ joinPipe rest]
              else []))
      ++ ["Branch: " ++ jsString entry.branch ++ " | Saved: " ++
            savedDate entry.timestamp]
      ++ (if jsTruthyS focusQuestion then
            ["\nFocus: " ++ jsString focusQuestion]
          else if (trimTobudget entry tier.budget).nextSteps = [] then
            ["\nConfirm you understand the context, then ask what to work on."]
          else
            ["\nContinue from next step. Ask clarifying questions if needed."]) := by
  simp only [buildPromptParts, trim_approaches_filter_id, append_if_bool,
    append_if_list, append_match_next, append_closing, if_not_isEmpty]
